import Mathlib

/-
Shallow embedding of src/foreman/foreman.py (python-foreman).

The Python module talks to a remote REST API through the `requests`
library.  We model the transport as an oracle `Http`: a function from
(HTTP method, url, request data) to the server's response, where the
response body is the already-JSON-decoded value (`json.loads(req.text)`
and `req.json()` both denote that value).  Python runtime values that
flow through the module (decoded JSON, ids, search filters) are modelled
by `PyVal`; Python exceptions that the module can raise (`ForemanError`
as well as the `TypeError`/`AttributeError`/... a buggy line can raise)
are modelled by `PyErr`, and every fallible function returns
`Except PyErr PyVal`.
-/

/-- A Python/JSON value as used by foreman.py: None, int, str, list, dict.
Dict keys are strings (JSON objects); entries are kept in insertion order,
matching Python dict iteration order. -/
inductive PyVal where
  | none : PyVal
  | int : Int → PyVal
  | str : String → PyVal
  | list : List PyVal → PyVal
  | dict : List (String × PyVal) → PyVal

/-- Python truthiness: None, 0, "", [], {} are falsy; everything else truthy. -/
def truthy : PyVal → Bool
  | .none => false
  | .int n => n != 0
  | .str s => s != ""
  | .list xs => !xs.isEmpty
  | .dict es => !es.isEmpty

/-- Python str() on the values the source applies it to (None, int, str).
The source never reaches str() on a container, so their repr is not modelled. -/
def pyStr : PyVal → String
  | .none => "None"
  | .int n => toString n
  | .str s => s
  | .list _ => "<list>"
  | .dict _ => "<dict>"

/-- First binding of a key in a dict's entry list (Python dicts cannot hold
duplicate keys, so on real inputs the binding is unique). -/
def dlookup : List (String × PyVal) → String → Option PyVal
  | [], _ => Option.none
  | (k, v) :: rest, key => if k == key then some v else dlookup rest key

/-- Python dict assignment `d[key] = v`: replace the binding in place if the
key is present, else append the new binding. -/
def dset : List (String × PyVal) → String → PyVal → List (String × PyVal)
  | [], key, v => [(key, v)]
  | (k, w) :: rest, key, v =>
    if k == key then (k, v) :: rest else (k, w) :: dset rest key v

/-- The ForemanError exception of foreman.py: url, status code, extracted
message, raw decoded error body (the `request` field of the source). -/
structure ForemanError where
  url : String
  status_code : Nat
  message : PyVal
  request : PyVal

/-- Exceptions the module can raise: its own ForemanError, plus the Python
runtime errors reachable from its code paths. -/
inductive PyErr where
  | foremanError : ForemanError → PyErr
  | attributeError : String → PyErr
  | typeError : String → PyErr
  | indexError : String → PyErr
  | keyError : String → PyErr

/-- Python `x.get(key)`: defined (with default None) on dicts; on any other
value the attribute lookup raises AttributeError. -/
def pyGetMethod : PyVal → String → Except PyErr PyVal
  | .dict es, k => .ok ((dlookup es k).getD .none)
  | _, _ => .error (.attributeError "object has no attribute get")

/-- Python `key in x`: key test on dicts, element test on lists (a string key
equals only str elements), substring test on strings; TypeError otherwise. -/
def pyMemE (k : String) : PyVal → Except PyErr Bool
  | .dict es => .ok (es.any (fun e => e.1 == k))
  | .list xs => .ok (xs.any (fun v => match v with | .str s => s == k | _ => false))
  | .str s => .ok (if k == "" then true else (s.splitOn k).length > 1)
  | _ => .error (.typeError "argument is not iterable")

/-- Python `len(x)`: defined on lists, strings and dicts; TypeError otherwise. -/
def pyLen : PyVal → Except PyErr Nat
  | .list xs => .ok xs.length
  | .str s => .ok s.length
  | .dict es => .ok es.length
  | _ => .error (.typeError "object has no len")

/-- Python `x[0]`: first element of a list (IndexError when empty), first
character of a string, key lookup on a dict (our dict keys are strings, so
the integer key 0 is always a KeyError); TypeError otherwise. -/
def pyIndexZero : PyVal → Except PyErr PyVal
  | .list (x :: _) => .ok x
  | .list [] => .error (.indexError "list index out of range")
  | .str s => if s == "" then .error (.indexError "string index out of range") else .ok (.str (s.take 1))
  | .dict _ => .error (.keyError "0")
  | _ => .error (.typeError "object is not subscriptable")

/-- HTTP verbs issued by the module. -/
inductive HttpMethod where
  | GET | POST | PUT | DELETE

/-- A server response: status code and JSON-decoded body. -/
structure HttpResponse where
  status : Nat
  body : PyVal

/-- The transport oracle: what the server answers to each request.
The data argument is the request payload (None for DELETE / plain GET). -/
def Http : Type := HttpMethod → String → PyVal → HttpResponse

/-- An oracle answering every request with the same fixed response. -/
def constHttp (r : HttpResponse) : Http := fun _ _ _ => r

/-- The Foreman client object: `self.url` is built by `__init__` from
hostname, port and the fixed API version. Credentials configure the
transport and are not part of the request/response logic modelled here. -/
structure Foreman where
  hostname : String
  port : Int
  url : String

/-- Foreman.__init__: url = "https://{hostname}:{port}/api/v2". -/
def foremanMk (hostname : String) (port : Int) : Foreman :=
  { hostname := hostname, port := port,
    url := "https://" ++ hostname ++ ":" ++ toString port ++ "/api/" ++ "v2" }

/-- Foreman._get_resource_url: url = self.url + '/' + resource_type, then
appends '/' + str(resource_id) if resource_id is truthy, then (nested)
'/' + component if component is truthy, then '/' + str(component_id) if
component_id is truthy.  The source concatenates `component` without str();
all call sites pass a string, which pyStr maps to itself. -/
def get_resource_url (f : Foreman) (resource_type : String)
    (resource_id : PyVal := .none) (component : PyVal := .none)
    (component_id : PyVal := .none) : String :=
  let url := f.url ++ "/" ++ resource_type
  if truthy resource_id then
    let url := url ++ "/" ++ pyStr resource_id
    if truthy component then
      let url := url ++ "/" ++ pyStr component
      if truthy component_id then url ++ "/" ++ pyStr component_id
      else url
    else url
  else url

/-- Foreman._get_request: GET; status 200 returns the decoded body, any other
status raises ForemanError with message req.json().get('error').get('message')
(the two .get calls themselves raise AttributeError on non-dict values). -/
def get_request (http : Http) (url : String) (data : PyVal := .none) :
    Except PyErr PyVal :=
  let req := http .GET url data
  if req.status == 200 then .ok req.body
  else do
    let err ← pyGetMethod req.body "error"
    let msg ← pyGetMethod err "message"
    Except.error (.foremanError ⟨url, req.status, msg, req.body⟩)

/-- Foreman._put_request: PUT; status 200 returns the decoded body, any other
status raises ForemanError exactly like _get_request. -/
def put_request (http : Http) (url : String) (data : PyVal) :
    Except PyErr PyVal :=
  let req := http .PUT url data
  if req.status == 200 then .ok req.body
  else do
    let err ← pyGetMethod req.body "error"
    let msg ← pyGetMethod err "message"
    Except.error (.foremanError ⟨url, req.status, msg, req.body⟩)

/-- Foreman._delete_request: DELETE (no request body); status 200 returns the
decoded body, any other status raises ForemanError like _get_request. -/
def delete_request (http : Http) (url : String) : Except PyErr PyVal :=
  let req := http .DELETE url .none
  if req.status == 200 then .ok req.body
  else do
    let err ← pyGetMethod req.body "error"
    let msg ← pyGetMethod err "message"
    Except.error (.foremanError ⟨url, req.status, msg, req.body⟩)

/-- Foreman._post_request: POST; status 200 or 201 returns the decoded body.
Otherwise request_error = req.json().get('error'); if 'message' is in
request_error its value is the ForemanError message; otherwise the source
line `elif 'full_messages' in request_error.has_key:` tests membership in
the bound method object `has_key`, which raises TypeError (on a dict, whose
has_key attribute exists but is not iterable) or AttributeError (on a value
with no has_key attribute) — the full_messages join and the raw-object
fallback are unreachable. -/
def post_request (http : Http) (url : String) (data : PyVal) :
    Except PyErr PyVal :=
  let req := http .POST url data
  if req.status == 200 || req.status == 201 then .ok req.body
  else do
    let request_error ← pyGetMethod req.body "error"
    let hasMsg ← pyMemE "message" request_error
    if hasMsg then
      let m ← pyGetMethod request_error "message"
      Except.error (.foremanError ⟨url, req.status, m, req.body⟩)
    else
      match request_error with
      | .dict _ => Except.error (.typeError "argument of type builtin function or method is not iterable")
      | _ => Except.error (.attributeError "object has no attribute has key")

/-- The search-query building loop of Foreman.search_resource: starting from
data['search'] = '', for each (key, value) entry append ' AND ' when the
accumulated query is nonempty, then key + ' == ', then str(value) for an
int value or '"' + value + '"' for a str value (nothing for other types). -/
def buildSearchQuery : List (String × PyVal) → String → String
  | [], acc => acc
  | (key, v) :: rest, acc =>
    let acc := if acc != "" then acc ++ " AND " else acc
    let acc := acc ++ key ++ " == "
    let acc :=
      match v with
      | .int n => acc ++ toString n
      | .str s => acc ++ "\"" ++ s ++ "\""
      | _ => acc
    buildSearchQuery rest acc

/-- Foreman.search_resource: build the search query from search_data (a dict;
iterating any other value is not modelled and maps to the TypeError that
iterating None raises), GET the collection endpoint with
data = {'search': query}, take results.get('results'), and collapse: if
len(result) == 1 return result[0], else return result unchanged. -/
def search_resource (f : Foreman) (http : Http) (resource_type : String)
    (search_data : PyVal := .none) : Except PyErr PyVal := do
  let entries ←
    match search_data with
    | .dict es => Except.ok es
    | _ => Except.error (.typeError "object is not iterable")
  let q := buildSearchQuery entries ""
  let results ← get_request http (get_resource_url f resource_type)
    (.dict [("search", .str q)])
  let result ← pyGetMethod results "results"
  let n ← pyLen result
  if n == 1 then pyIndexZero result
  else Except.ok result

/-- Foreman.get_resource: if 'id' in data, resource_id = data.get('id');
elif 'name' in data, search and — via the condition
`if resource and 'id' and resource:` which is truthy exactly when the search
result is truthy — take resource.get('id') (an AttributeError when the
search returned a list of two or more matches).  Finally, if resource_id is
truthy GET the single-resource endpoint, else return None. -/
def get_resource (f : Foreman) (http : Http) (resource_type : String)
    (data : PyVal) : Except PyErr PyVal := do
  let resource_id ← do
    if (← pyMemE "id" data) then
      pyGetMethod data "id"
    else if (← pyMemE "name" data) then do
      let resource ← search_resource f http resource_type data
      if truthy resource then pyGetMethod resource "id"
      else Except.ok PyVal.none
    else Except.ok PyVal.none
  if truthy resource_id then
    get_request http (get_resource_url f resource_type resource_id)
  else Except.ok PyVal.none

/-- The copying loop of Foreman.post_resource: for each key of
additional_data, resource_data[key] = additional_data[key]. -/
def copyInto (rd : List (String × PyVal)) :
    List (String × PyVal) → List (String × PyVal)
  | [] => rd
  | (k, v) :: rest => copyInto (dset rd k v) rest

/-- The request body built by Foreman.post_resource: resource_data = {};
if additional_data is truthy copy all its key/value pairs in (a non-dict
truthy value has no .keys attribute); then resource_data[resource] = data. -/
def post_body (resource : String) (data : PyVal) (additional_data : PyVal) :
    Except PyErr PyVal := do
  let rd ←
    if truthy additional_data then
      match additional_data with
      | .dict es => Except.ok (copyInto [] es)
      | _ => Except.error (.attributeError "object has no attribute keys")
    else Except.ok []
  Except.ok (.dict (dset rd resource data))

/-- Foreman.post_resource: POST the built body to the collection endpoint
(the resource-type URL with no resource id). -/
def post_resource (f : Foreman) (http : Http) (resource_type : String)
    (resource : String) (data : PyVal) (additional_data : PyVal := .none) :
    Except PyErr PyVal := do
  let url := get_resource_url f resource_type
  let body ← post_body resource data additional_data
  post_request http url body

/-- Foreman.put_resource: PUT data to the single-resource (optionally
sub-component) endpoint. -/
def put_resource (f : Foreman) (http : Http) (resource_type : String)
    (resource_id : PyVal) (data : PyVal) (component : PyVal := .none) :
    Except PyErr PyVal :=
  put_request http (get_resource_url f resource_type resource_id component) data

/-- Foreman.delete_resource: resource_id = str(data.get('id')) — str() is
applied before the URL builder's truthiness test, so even id 0 yields the
nonempty segment "0" — then DELETE the single-resource endpoint. -/
def delete_resource (f : Foreman) (http : Http) (resource_type : String)
    (data : PyVal) : Except PyErr PyVal := do
  let ridv ← pyGetMethod data "id"
  let resource_id := pyStr ridv
  delete_request http (get_resource_url f resource_type (.str resource_id))

/-- A concrete client instance used by concrete-input theorems. -/
def fEx : Foreman := foremanMk "foreman.example.com" 443

/-- The textual clause emitted for one filter entry: `key == value`, the
value quoted for strings, bare for integers (other types render nothing,
as in the source loop). -/
def clauseOf : String × PyVal → String
  | (k, .int n) => k ++ " == " ++ toString n
  | (k, .str s) => k ++ " == " ++ "\"" ++ s ++ "\""
  | (k, .none) => k ++ " == "
  | (k, .list _) => k ++ " == "
  | (k, .dict _) => k ++ " == "

/-- Tail of a " AND "-join: one leading separator per remaining clause. -/
def joinRest : List String → String
  | [] => ""
  | c :: rest => " AND " ++ c ++ joinRest rest

/-- Join clauses with the literal " AND "; the empty list joins to "". -/
def joinAnd : List String → String
  | [] => ""
  | c :: rest => c ++ joinRest rest

theorem str_length_zero_iff (s : String) : s.length = 0 ↔ s = "" := by
  constructor
  · intro h
    apply String.ext
    exact List.length_eq_zero.mp h
  · intro h
    subst h
    rfl

theorem append_ne_empty_left {s : String} (t : String) (h : s ≠ "") :
    s ++ t ≠ "" := by
  intro he
  apply h
  have hl := congrArg String.length he
  rw [String.length_append] at hl
  have h0 : ("" : String).length = 0 := rfl
  rw [h0] at hl
  exact (str_length_zero_iff s).mp (by omega)

theorem append_ne_empty_right (s : String) {t : String} (h : t ≠ "") :
    s ++ t ≠ "" := by
  intro he
  apply h
  have hl := congrArg String.length he
  rw [String.length_append] at hl
  have h0 : ("" : String).length = 0 := rfl
  rw [h0] at hl
  exact (str_length_zero_iff t).mp (by omega)

theorem toDigitsCore_ne_nil (b : Nat) :
    ∀ (fuel n : Nat) (ds : List Char), ds ≠ [] →
      Nat.toDigitsCore b fuel n ds ≠ []
  | 0, _, _, h => h
  | fuel + 1, n, ds, h => by
    rw [Nat.toDigitsCore]
    by_cases hz : n / b = 0
    · simp [hz]
    · rw [if_neg hz]
      exact toDigitsCore_ne_nil b fuel (n / b) _ (by simp)

theorem toDigits_ne_nil (b n : Nat) : Nat.toDigits b n ≠ [] := by
  unfold Nat.toDigits
  rw [Nat.toDigitsCore]
  by_cases hz : n / b = 0
  · simp [hz]
  · rw [if_neg hz]
    exact toDigitsCore_ne_nil b n (n / b) _ (by simp)

theorem natRepr_ne_empty (n : Nat) : Nat.repr n ≠ "" := by
  unfold Nat.repr
  intro h
  exact toDigits_ne_nil 10 n (by simpa using List.asString_eq.mp h)

theorem intToString_ne_empty (n : Int) : toString n ≠ "" := by
  cases n with
  | ofNat m => exact natRepr_ne_empty m
  | negSucc m => exact append_ne_empty_left _ (by decide)

theorem clauseOf_ne_empty (e : String × PyVal) : clauseOf e ≠ "" := by
  obtain ⟨k, v⟩ := e
  have h1 : k ++ " == " ≠ "" := append_ne_empty_right _ (by decide)
  cases v with
  | int n => exact append_ne_empty_left _ h1
  | str s => exact append_ne_empty_left _ (append_ne_empty_left _ (append_ne_empty_left _ h1))
  | none => exact h1
  | list xs => exact h1
  | dict es => exact h1

theorem buildSearchQuery_step (k : String) (v : PyVal)
    (rest : List (String × PyVal)) (acc : String) (h : acc ≠ "") :
    buildSearchQuery ((k, v) :: rest) acc =
      buildSearchQuery rest (acc ++ (" AND " ++ clauseOf (k, v))) := by
  have hb : (acc != "") = true := by
    simpa using h
  cases v <;>
    (simp only [buildSearchQuery, clauseOf, hb, if_true];
      apply congrArg (buildSearchQuery rest);
      simp only [String.append_assoc])

theorem buildSearchQuery_acc (es : List (String × PyVal)) :
    ∀ acc : String, acc ≠ "" →
      buildSearchQuery es acc = acc ++ joinRest (es.map clauseOf) := by
  induction es with
  | nil =>
    intro acc _
    simp [buildSearchQuery, joinRest]
  | cons e rest ih =>
    intro acc h
    obtain ⟨k, v⟩ := e
    rw [buildSearchQuery_step k v rest acc h]
    rw [ih _ (append_ne_empty_right _ (append_ne_empty_left _ (by decide)))]
    simp [joinRest, String.append_assoc]

theorem buildSearchQuery_eq_joinAnd (es : List (String × PyVal)) :
    buildSearchQuery es "" = joinAnd (es.map clauseOf) := by
  cases es with
  | nil => rfl
  | cons e rest =>
    obtain ⟨k, v⟩ := e
    have hfirst : buildSearchQuery ((k, v) :: rest) "" =
        buildSearchQuery rest (clauseOf (k, v)) := by
      cases v <;> rfl
    rw [hfirst, buildSearchQuery_acc rest _ (clauseOf_ne_empty (k, v))]
    simp [joinAnd]

theorem dlookup_dset_self (d : List (String × PyVal)) (k : String) (v : PyVal) :
    dlookup (dset d k v) k = some v := by
  induction d with
  | nil => simp [dset, dlookup]
  | cons e rest ih =>
    obtain ⟨k', w⟩ := e
    by_cases hk : k' == k
    · simp [dset, dlookup, hk]
    · simp only [dset, hk, if_neg, Bool.false_eq_true, not_false_eq_true, if_false]
      simp [dlookup, hk, ih]

theorem dlookup_dset_ne (d : List (String × PyVal)) (k k' : String) (v : PyVal)
    (h : k' ≠ k) : dlookup (dset d k v) k' = dlookup d k' := by
  have hne : ¬ k = k' := fun he => h he.symm
  induction d with
  | nil => simp [dset, dlookup, hne]
  | cons e rest ih =>
    obtain ⟨k0, w⟩ := e
    by_cases hk : k0 == k
    · have hk' : k0 = k := by simpa using hk
      subst hk'
      simp [dset, dlookup, hk, hne]
    · simp [dset, dlookup, hk, ih]

theorem dlookup_isSome_iff_any (es : List (String × PyVal)) (k : String) :
    (dlookup es k).isSome = es.any (fun e => e.1 == k) := by
  induction es with
  | nil => simp [dlookup]
  | cons e rest ih =>
    obtain ⟨k', v⟩ := e
    by_cases hk : k' == k
    · simp [dlookup, hk]
    · simp [dlookup, hk, ih]

theorem dset_eq_append_of_not_mem (d : List (String × PyVal)) (k : String)
    (v : PyVal) (h : k ∉ d.map Prod.fst) : dset d k v = d ++ [(k, v)] := by
  induction d with
  | nil => rfl
  | cons e rest ih =>
    obtain ⟨k', w⟩ := e
    simp only [List.map_cons, List.mem_cons, not_or] at h
    have hne : ¬ k' = k := fun he => h.1 he.symm
    have hk : (k' == k) = false := by simp [hne]
    simp [dset, hk, ih h.2]

theorem copyInto_eq_append (es : List (String × PyVal)) :
    ∀ rd : List (String × PyVal),
      (∀ x ∈ es.map Prod.fst, x ∉ rd.map Prod.fst) →
      (es.map Prod.fst).Nodup →
      copyInto rd es = rd ++ es := by
  induction es with
  | nil => intro rd _ _; simp [copyInto]
  | cons e rest ih =>
    intro rd hdisj hnd
    obtain ⟨k, v⟩ := e
    simp only [List.map_cons, List.nodup_cons] at hnd
    have hknotin : k ∉ rd.map Prod.fst := hdisj k (by simp)
    rw [copyInto, dset_eq_append_of_not_mem rd k v hknotin]
    rw [ih (rd ++ [(k, v)]) ?hd hnd.2]
    · simp
    case hd =>
      intro x hx
      simp only [List.map_append, List.mem_append, not_or]
      constructor
      · exact hdisj x (by simp [hx])
      · simp only [List.map_cons, List.map_nil, List.mem_singleton]
        intro he
        exact hnd.1 (he ▸ hx)

theorem copyInto_nil_eq (es : List (String × PyVal))
    (hnd : (es.map Prod.fst).Nodup) : copyInto [] es = es := by
  simpa using copyInto_eq_append es [] (by simp) hnd

theorem except_ok_bind {α β : Type} (x : α) (g : α → Except PyErr β) :
    (Except.ok x >>= g : Except PyErr β) = g x := rfl

theorem except_pure_eq_ok {α : Type} (x : α) :
    (pure x : Except PyErr α) = Except.ok x := rfl

theorem get_resource_url_base (f : Foreman) (rt : String) :
    get_resource_url f rt = f.url ++ "/" ++ rt := rfl

/-- C5: the URL builder produces base/resource_type, appending /resource_id
only when resource_id is supplied (and truthy, see C9), /component only when
resource_id and component are both supplied, and /component_id only when all
three are supplied; a component or component_id given without the earlier
segments is ignored. -/
theorem c5_url_hierarchy (f : Foreman) (resource_type : String)
    (rid comp cid : PyVal) :
    (get_resource_url f resource_type .none comp cid
        = f.url ++ "/" ++ resource_type)
    ∧ (truthy rid = true →
        get_resource_url f resource_type rid .none cid
          = f.url ++ "/" ++ resource_type ++ "/" ++ pyStr rid)
    ∧ (truthy rid = true → truthy comp = true →
        get_resource_url f resource_type rid comp .none
          = f.url ++ "/" ++ resource_type ++ "/" ++ pyStr rid ++ "/" ++ pyStr comp)
    ∧ (truthy rid = true → truthy comp = true → truthy cid = true →
        get_resource_url f resource_type rid comp cid
          = f.url ++ "/" ++ resource_type ++ "/" ++ pyStr rid ++ "/" ++ pyStr comp
              ++ "/" ++ pyStr cid) := by
  refine ⟨?_, ?_, ?_, ?_⟩
  · simp [get_resource_url, truthy]
  · intro h1
    simp only [get_resource_url, h1, if_true]
    simp [truthy]
  · intro h1 h2
    simp only [get_resource_url, h1, h2, if_true]
    simp [truthy]
  · intro h1 h2 h3
    simp only [get_resource_url, h1, h2, h3, if_true]

/-- Witness for C5 at a fully supplied concrete input. -/
theorem c5_url_hierarchy_witness :
    get_resource_url fEx "hosts" (.int 42) (.str "power") (.int 1)
      = "https://foreman.example.com:443/api/v2/hosts/42/power/1" :=
  ((c5_url_hierarchy fEx "hosts" (.int 42) (.str "power") (.int 1)).2.2.2
    (by decide) (by decide) (by decide)).trans rfl

/-- C9: the URL builder tests its optional segments by Python truthiness, so
any falsy resource_id (0, "", None) omits the id segment and everything
after it; and get_resource with identifier {id: 0} returns None whatever the
transport would answer (no request is issued). -/
theorem c9_truthiness (f : Foreman) (resource_type : String)
    (rid comp cid : PyVal) :
    (truthy rid = false →
        get_resource_url f resource_type rid comp cid
          = f.url ++ "/" ++ resource_type)
    ∧ (∀ http : Http,
        get_resource f http resource_type (.dict [("id", .int 0)])
          = .ok .none) := by
  constructor
  · intro h
    simp [get_resource_url, h]
  · intro http
    rfl

/-- Witness for C9: falsy id 0 with component/component_id supplied, and the
concrete no-request get. -/
theorem c9_truthiness_witness :
    get_resource_url fEx "hosts" (.int 0) (.str "power") (.int 1)
        = "https://foreman.example.com:443/api/v2/hosts"
    ∧ get_resource fEx (constHttp ⟨200, .dict []⟩) "hosts"
        (.dict [("id", .int 0)]) = .ok .none :=
  ⟨((c9_truthiness fEx "hosts" (.int 0) (.str "power") (.int 1)).1
      (by decide)).trans rfl,
   (c9_truthiness fEx "hosts" (.int 0) (.str "power") (.int 1)).2
      (constHttp ⟨200, .dict []⟩)⟩

/-- C6: the search-query loop emits one `key == value` clause per filter
entry in iteration order — string values double-quoted, integer values bare —
joined by the literal " AND "; the empty mapping yields the empty string. -/
theorem c6_search_query (es : List (String × PyVal)) :
    buildSearchQuery es "" = joinAnd (es.map clauseOf)
    ∧ buildSearchQuery [] "" = ""
    ∧ buildSearchQuery [("name", .str "x"), ("id", .int 5)] ""
        = "name == \"x\" AND id == 5" :=
  ⟨buildSearchQuery_eq_joinAnd es, rfl, rfl⟩

/-- C10: whatever additional_data contains — even a binding for the wrapper
key itself — the body built by post_resource always maps the wrapper key to
the payload, because `resource_data[resource] = data` runs after the copy. -/
theorem c10_wrapper_overwrite (resource : String) (data : PyVal)
    (es : List (String × PyVal)) :
    ∃ bs : List (String × PyVal),
      post_body resource data (.dict es) = .ok (.dict bs)
      ∧ dlookup bs resource = some data := by
  cases es with
  | nil => exact ⟨dset [] resource data, rfl, dlookup_dset_self [] resource data⟩
  | cons e rest =>
    exact ⟨dset (copyInto [] (e :: rest)) resource data, rfl,
      dlookup_dset_self _ resource data⟩

/-- C2 is refuted by the code: on a failed POST whose error body has no
'message' key but does carry 'full_messages', line 123 evaluates
`'full_messages' in request_error.has_key` and raises TypeError instead of
joining full_messages (first conjunct); the 'message' preference itself
works (second conjunct). -/
theorem c2_full_messages_crash :
    post_request (constHttp ⟨422, .dict [("error", .dict
          [("full_messages", .list [.str "a", .str "b"])])]⟩)
        "https://foreman.example.com:443/api/v2/domains"
        (.dict [("domain", .dict [("name", .str "example.com")])])
      = .error (.typeError
          "argument of type builtin function or method is not iterable")
    ∧ post_request (constHttp ⟨422, .dict [("error", .dict
          [("message", .str "bad request")])]⟩)
        "https://foreman.example.com:443/api/v2/domains" (.dict [])
      = .error (.foremanError ⟨"https://foreman.example.com:443/api/v2/domains",
          422, .str "bad request",
          .dict [("error", .dict [("message", .str "bad request")])]⟩) :=
  ⟨rfl, rfl⟩

/-- C3's zero-match and id-direct parts hold (second and third conjuncts),
but an ambiguous search (two or more matches) does not return None: the
condition `if resource and 'id' and resource:` is truthy for a nonempty
result list, and `resource.get('id')` on a list raises AttributeError
(first conjunct). -/
theorem c3_resolver_behaviour :
    get_resource fEx (constHttp ⟨200, .dict [("results",
          .list [.dict [("id", .int 1)], .dict [("id", .int 2)]])]⟩)
        "hosts" (.dict [("name", .str "h1")])
      = .error (.attributeError "object has no attribute get")
    ∧ get_resource fEx (constHttp ⟨200, .dict [("results", .list [])]⟩)
        "hosts" (.dict [("name", .str "h1")])
      = .ok .none
    ∧ get_resource fEx (constHttp ⟨200, .dict [("id", .int 7),
          ("name", .str "h1")]⟩)
        "hosts" (.dict [("id", .int 7)])
      = .ok (.dict [("id", .int 7), ("name", .str "h1")]) :=
  ⟨rfl, rfl, rfl⟩

/-- C4: when the server's results collection has exactly one element, search
returns that element bare; a collection of zero or two-plus elements is
returned unchanged. -/
theorem c4_collapse (f : Foreman) (resource_type : String)
    (es : List (String × PyVal)) (xs : List PyVal) :
    (∀ x : PyVal, xs = [x] →
        search_resource f (constHttp ⟨200, .dict [("results", .list xs)]⟩)
          resource_type (.dict es) = .ok x)
    ∧ (xs.length ≠ 1 →
        search_resource f (constHttp ⟨200, .dict [("results", .list xs)]⟩)
          resource_type (.dict es) = .ok (.list xs)) := by
  constructor
  · rintro x rfl
    rfl
  · intro h
    simp [search_resource, get_request, constHttp, pyGetMethod, pyLen, h,
      dlookup, except_ok_bind, except_pure_eq_ok]

/-- Witness for C4: a one-element collection collapses; a two-element
collection is returned as a collection. -/
theorem c4_collapse_witness :
    search_resource fEx (constHttp ⟨200, .dict [("results",
          .list [.dict [("id", .int 7)]])]⟩) "hosts"
        (.dict [("name", .str "h1")]) = .ok (.dict [("id", .int 7)])
    ∧ search_resource fEx (constHttp ⟨200, .dict [("results",
          .list [.int 1, .int 2])]⟩) "hosts"
        (.dict []) = .ok (.list [.int 1, .int 2]) :=
  ⟨(c4_collapse fEx "hosts" [("name", .str "h1")] [.dict [("id", .int 7)]]).1
      (.dict [("id", .int 7)]) rfl,
   (c4_collapse fEx "hosts" [] [.int 1, .int 2]).2 (by decide)⟩

/-- C8: a delete whose identifier carries a numeric id issues exactly one
DELETE to base/resource_type/id — the result factors through delete_request
at that URL (first conjunct) and depends on the transport only through its
answer to that single DELETE, so no search is ever performed (second
conjunct). -/
theorem c8_delete (f : Foreman) (resource_type : String)
    (ds : List (String × PyVal)) (n : Int)
    (h : dlookup ds "id" = some (.int n)) :
    (∀ http : Http,
        delete_resource f http resource_type (.dict ds)
          = delete_request http
              (f.url ++ "/" ++ resource_type ++ "/" ++ toString n))
    ∧ (∀ h1 h2 : Http,
        h1 .DELETE (f.url ++ "/" ++ resource_type ++ "/" ++ toString n) .none
          = h2 .DELETE (f.url ++ "/" ++ resource_type ++ "/" ++ toString n) .none →
        delete_resource f h1 resource_type (.dict ds)
          = delete_resource f h2 resource_type (.dict ds)) := by
  have ht : ((toString n != "") = true) := by
    simp [intToString_ne_empty n]
  have hurl : ∀ http : Http,
      delete_resource f http resource_type (.dict ds)
        = delete_request http
            (f.url ++ "/" ++ resource_type ++ "/" ++ toString n) := by
    intro http
    simp only [delete_resource, pyGetMethod, h]
    simp [except_ok_bind, except_pure_eq_ok, get_resource_url, truthy, pyStr,
      intToString_ne_empty n]
  refine ⟨hurl, ?_⟩
  intro h1 h2 hagree
  rw [hurl h1, hurl h2]
  simp [delete_request, hagree]

/-- Witness for C8 at a concrete identifier {id: 3}. -/
theorem c8_delete_witness :
    delete_resource fEx (constHttp ⟨200, .dict [("id", .int 3)]⟩) "domains"
        (.dict [("id", .int 3)])
      = delete_request (constHttp ⟨200, .dict [("id", .int 3)]⟩)
          "https://foreman.example.com:443/api/v2/domains/3" :=
  ((c8_delete fEx "domains" [("id", .int 3)] 3 rfl).1
      (constHttp ⟨200, .dict [("id", .int 3)]⟩)).trans rfl

/-- C7: create POSTs to the collection endpoint base/resource_type a body
holding the additional_data entries at top level together with the payload
under the wrapper key (characterised by lookups: the wrapper key maps to the
payload, every other key maps as in additional_data), and a 200/201 response
returns the decoded body unchanged. -/
theorem c7_create (f : Foreman) (resource_type resource : String)
    (data : PyVal) (es : List (String × PyVal))
    (hnd : (es.map Prod.fst).Nodup) :
    ∃ bs : List (String × PyVal),
      post_body resource data (.dict es) = .ok (.dict bs)
      ∧ dlookup bs resource = some data
      ∧ (∀ k : String, k ≠ resource → dlookup bs k = dlookup es k)
      ∧ (∀ http : Http,
          post_resource f http resource_type resource data (.dict es)
            = post_request http (f.url ++ "/" ++ resource_type) (.dict bs))
      ∧ (∀ http : Http,
          (http .POST (f.url ++ "/" ++ resource_type) (.dict bs)).status = 200 ∨
          (http .POST (f.url ++ "/" ++ resource_type) (.dict bs)).status = 201 →
          post_resource f http resource_type resource data (.dict es)
            = .ok (http .POST (f.url ++ "/" ++ resource_type) (.dict bs)).body) := by
  have hcopy : copyInto [] es = es := copyInto_nil_eq es hnd
  refine ⟨dset (copyInto [] es) resource data, ?_, ?_, ?_, ?_, ?_⟩
  case _ =>
    cases es with
    | nil => rfl
    | cons e rest => rfl
  case _ => exact dlookup_dset_self _ resource data
  case _ =>
    intro k hk
    rw [dlookup_dset_ne _ resource k data hk, hcopy]
  case _ =>
    intro http
    have hpb : post_body resource data (.dict es)
        = .ok (.dict (dset (copyInto [] es) resource data)) := by
      cases es with
      | nil => rfl
      | cons e rest => rfl
    simp [post_resource, hpb, except_ok_bind, except_pure_eq_ok, get_resource_url_base]
  case _ =>
    intro http hst
    have hpb : post_body resource data (.dict es)
        = .ok (.dict (dset (copyInto [] es) resource data)) := by
      cases es with
      | nil => rfl
      | cons e rest => rfl
    have hmain : post_resource f http resource_type resource data (.dict es)
        = post_request http (f.url ++ "/" ++ resource_type)
            (.dict (dset (copyInto [] es) resource data)) := by
      simp [post_resource, hpb, except_ok_bind, except_pure_eq_ok, get_resource_url_base]
    rw [hmain]
    rcases hst with h200 | h201
    · simp [post_request, h200]
    · simp [post_request, h201]

/-- Witness for C7: creating a domain with an extra top-level field. -/
theorem c7_create_witness :
    ∃ bs : List (String × PyVal),
      post_body "domain" (.dict [("name", .str "example.com")])
          (.dict [("location_id", .int 2)]) = .ok (.dict bs)
      ∧ dlookup bs "domain" = some (.dict [("name", .str "example.com")])
      ∧ dlookup bs "location_id" = dlookup [("location_id", .int 2)] "location_id"
      ∧ post_resource fEx (constHttp ⟨201, .dict [("id", .int 3),
            ("name", .str "example.com")]⟩) "domains" "domain"
          (.dict [("name", .str "example.com")]) (.dict [("location_id", .int 2)])
        = .ok (.dict [("id", .int 3), ("name", .str "example.com")]) := by
  obtain ⟨bs, h1, h2, h3, _, h5⟩ := c7_create fEx "domains" "domain"
    (.dict [("name", .str "example.com")]) [("location_id", .int 2)] (by simp)
  exact ⟨bs, h1, h2, h3 "location_id" (by decide),
    h5 (constHttp ⟨201, .dict [("id", .int 3), ("name", .str "example.com")]⟩)
      (Or.inr rfl)⟩

/-- C1 is refuted by the code on the POST error path: the first five
conjuncts show the claimed success mapping (GET/PUT/DELETE return the decoded
body at status 200, POST at 200 and at 201) and the next three show GET, PUT
and DELETE raising a ForemanError whose status_code is exactly the response
status; but the last conjunct shows a failed POST whose error body carries
only 'full_messages' (no 'message' key) raising TypeError via line 123's
has_key membership bug instead of any ForemanError, so "for any other status
the wrapper raises an ApiError" fails for POST. -/
theorem c1_status_mapping :
    get_request (constHttp ⟨200, .dict [("a", .int 1)]⟩) "w" .none
        = .ok (.dict [("a", .int 1)])
    ∧ put_request (constHttp ⟨200, .dict [("a", .int 1)]⟩) "w" (.dict [])
        = .ok (.dict [("a", .int 1)])
    ∧ delete_request (constHttp ⟨200, .dict [("a", .int 1)]⟩) "w"
        = .ok (.dict [("a", .int 1)])
    ∧ post_request (constHttp ⟨200, .dict [("a", .int 1)]⟩) "w" (.dict [])
        = .ok (.dict [("a", .int 1)])
    ∧ post_request (constHttp ⟨201, .dict [("a", .int 1)]⟩) "w" (.dict [])
        = .ok (.dict [("a", .int 1)])
    ∧ get_request (constHttp ⟨500, .dict [("error", .dict
          [("message", .str "oops")])]⟩) "w" .none
        = .error (.foremanError ⟨"w", 500, .str "oops",
            .dict [("error", .dict [("message", .str "oops")])]⟩)
    ∧ put_request (constHttp ⟨403, .dict [("error", .dict
          [("message", .str "denied")])]⟩) "w" (.dict [])
        = .error (.foremanError ⟨"w", 403, .str "denied",
            .dict [("error", .dict [("message", .str "denied")])]⟩)
    ∧ delete_request (constHttp ⟨410, .dict [("error", .dict
          [("message", .str "gone")])]⟩) "w"
        = .error (.foremanError ⟨"w", 410, .str "gone",
            .dict [("error", .dict [("message", .str "gone")])]⟩)
    ∧ post_request (constHttp ⟨500, .dict [("error", .dict
          [("full_messages", .list [.str "x"])])]⟩) "w" (.dict [])
        = .error (.typeError
            "argument of type builtin function or method is not iterable") :=
  ⟨rfl, rfl, rfl, rfl, rfl, rfl, rfl, rfl, rfl⟩
